import Mathlib

/-!
Verification of the DDPG agent implemented in
`src/agents/actor_critic_agents/DDPG.py`.

Batched tensors are modelled as Lean lists of rationals (`List Rat` for a
vector, `List (List Rat)` for a batch of vectors); `ops.cat(..., axis=1)`
on a pair of row vectors is list append; elementwise tensor arithmetic on
a batch is `zipWith`.  The four networks are modelled as functions of
their parameter list.  Services provided by the excluded `Base_Agent` and
`Replay_Buffer` collaborators are modelled from the specification and
marked as such in their doc comments.
-/

namespace DDPGSpec

/-- A stored transition, as held by the replay buffer
(`(state, action, reward, next_state, done)`). -/
structure Transition where
  state : List Rat
  action : List Rat
  reward : Rat
  next_state : List Rat
  done : Bool
deriving DecidableEq, Repr

/-- The float to which a stored `done` flag converts when it enters
elementwise tensor arithmetic (`1.0` for true, `0.0` for false). -/
def doneToRat (d : Bool) : Rat := if d then 1 else 0

/-- Three-list pointwise zip, used to model elementwise arithmetic over
three equally-shaped batched tensors. -/
def zipWith3 (f : α → β → γ → δ) : List α → List β → List γ → List δ
  | a :: as, b :: bs, c :: cs => f a b c :: zipWith3 f as bs cs
  | _, _, _ => []

/-- Mean of a list of rationals, modelling `Tensor.mean()`. -/
def listMean (l : List Rat) : Rat := l.sum / (l.length : Rat)

/-- `compute_critic_values_for_next_states` (DDPG.py lines 111-118):
`actions_next = actor_target(next_states)` followed by
`critic_target(cat((next_states, actions_next), axis=1))`, rowwise over
the batch. -/
def compute_critic_values_for_next_states
    (actor_target : List Rat → List Rat) (critic_target : List Rat → Rat)
    (next_states : List (List Rat)) : List Rat :=
  next_states.map fun ns => critic_target (ns ++ actor_target ns)

/-- `compute_critic_values_for_current_states` (DDPG.py lines 120-123):
`rewards + discount_rate * critic_targets_next * (1.0 - dones)`,
elementwise over the batch. -/
def compute_critic_values_for_current_states
    (discount_rate : Rat) (rewards critic_targets_next dones : List Rat) : List Rat :=
  zipWith3 (fun r q d => r + discount_rate * q * (1 - d)) rewards critic_targets_next dones

/-- `compute_critic_targets` (DDPG.py lines 105-109). -/
def compute_critic_targets
    (discount_rate : Rat) (actor_target : List Rat → List Rat)
    (critic_target : List Rat → Rat)
    (next_states : List (List Rat)) (rewards dones : List Rat) : List Rat :=
  compute_critic_values_for_current_states discount_rate rewards
    (compute_critic_values_for_next_states actor_target critic_target next_states) dones

/-- `compute_expected_critic_values` (DDPG.py lines 125-130):
`critic_local(cat((states, actions), axis=1))`, rowwise. -/
def compute_expected_critic_values
    (critic_local : List Rat → Rat) (states actions : List (List Rat)) : List Rat :=
  (states.zip actions).map fun p => critic_local (p.1 ++ p.2)

/-- `ops.mse_loss`: mean of elementwise squared differences. -/
def mse_loss (a b : List Rat) : Rat :=
  listMean ((a.zip b).map fun p => (p.1 - p.2) ^ 2)

/-- `compute_loss` (DDPG.py lines 97-103): MSE between expected critic
values and the critic targets. -/
def compute_loss (critic_local : List Rat → Rat)
    (states actions : List (List Rat)) (critic_targets : List Rat) : Rat :=
  mse_loss (compute_expected_critic_values critic_local states actions) critic_targets

/-- `calculate_actor_loss` (DDPG.py lines 149-155):
`-critic_local(cat((states, actor_local(states)), axis=1)).mean()`. -/
def calculate_actor_loss
    (actor_local : List Rat → List Rat) (critic_local : List Rat → Rat)
    (states : List (List Rat)) : Rat :=
  -(listMean (states.map fun st => critic_local (st ++ actor_local st)))

lemma zipWith3_map_middle (f : α → γ → δ → ε) (g : β → γ) :
    ∀ (as : List α) (bs : List β) (ds : List δ),
      zipWith3 f as (bs.map g) ds = zipWith3 (fun a b d => f a (g b) d) as bs ds := by
  intro as
  induction as with
  | nil => intro bs ds; cases bs <;> cases ds <;> rfl
  | cons a tl ih =>
    intro bs ds
    cases bs with
    | nil => cases ds <;> rfl
    | cons b bs =>
      cases ds with
      | nil => rfl
      | cons d ds => simp [zipWith3, List.map, ih]

lemma zipWith3_getD (f : α → β → γ → δ) (d1 : α) (d2 : β) (d3 : γ) (e : δ) :
    ∀ (as : List α) (bs : List β) (cs : List γ) (i : Nat),
      i < as.length → i < bs.length → i < cs.length →
      (zipWith3 f as bs cs).getD i e = f (as.getD i d1) (bs.getD i d2) (cs.getD i d3) := by
  intro as
  induction as with
  | nil => intro bs cs i h1 _ _; simp at h1
  | cons a tl ih =>
    intro bs cs i h1 h2 h3
    cases bs with
    | nil => simp at h2
    | cons b bs =>
      cases cs with
      | nil => simp at h3
      | cons c cs =>
        cases i with
        | zero => rfl
        | succ i =>
          simp only [zipWith3, List.getD_cons_succ]
          exact ih bs cs i (by simpa using h1) (by simpa using h2) (by simpa using h3)

/-- C1: for every batch, the critic target computed by the critic
learning step equals `rewards + γ · q_next · (1 − dones)` with
`q_next = critic_target(cat(next_states, actor_target(next_states)))`;
and at every index whose done flag is `1`, the target equals the reward
there, for every discount rate and every pair of target networks. -/
theorem C1_critic_target_formula
    (γ : Rat) (aT : List Rat → List Rat) (cT : List Rat → Rat)
    (next_states : List (List Rat)) (rewards dones : List Rat) :
    compute_critic_targets γ aT cT next_states rewards dones
      = zipWith3 (fun r ns d => r + γ * cT (ns ++ aT ns) * (1 - d)) rewards next_states dones
  ∧ ∀ i : Nat, i < rewards.length → i < next_states.length → i < dones.length →
      dones.getD i 0 = 1 →
      (compute_critic_targets γ aT cT next_states rewards dones).getD i 0
        = rewards.getD i 0 := by
  have hfuse :
      compute_critic_targets γ aT cT next_states rewards dones
        = zipWith3 (fun r ns d => r + γ * cT (ns ++ aT ns) * (1 - d))
            rewards next_states dones := by
    unfold compute_critic_targets compute_critic_values_for_current_states
      compute_critic_values_for_next_states
    exact zipWith3_map_middle _ _ rewards next_states dones
  refine ⟨hfuse, ?_⟩
  intro i h1 h2 h3 hd
  rw [hfuse, zipWith3_getD _ 0 [] 0 0 rewards next_states dones i h1 h2 h3, hd]
  ring

/-- Witness for C1 at a concrete batch: with rewards `[5, 2]`, done flags
`[1, 0]` and a nontrivial discount and critic, the target at the
terminal index 0 is exactly the reward 5. -/
theorem C1_witness :
    (0 < [(5 : Rat), 2].length ∧ 0 < [[(1 : Rat)], [2]].length ∧ 0 < [(1 : Rat), 0].length
      ∧ [(1 : Rat), 0].getD 0 0 = 1)
  ∧ (compute_critic_targets (9/10) (fun s => s) (fun v => v.sum)
        [[(1 : Rat)], [2]] [5, 2] [1, 0]).getD 0 0 = [(5 : Rat), 2].getD 0 0 :=
  ⟨by refine ⟨by decide, by decide, by decide, by decide⟩,
    (C1_critic_target_formula (9/10) (fun s => s) (fun v => v.sum)
      [[(1 : Rat)], [2]] [5, 2] [1, 0]).2 0 (by decide) (by decide) (by decide) (by decide)⟩

lemma sum_map_lt_sum_map (f g : α → Rat) :
    ∀ (l : List α), l ≠ [] → (∀ x ∈ l, f x < g x) →
      (l.map f).sum < (l.map g).sum := by
  intro l
  induction l with
  | nil => intro h _; exact absurd rfl h
  | cons a tl ih =>
    intro _ h
    cases tl with
    | nil => simpa using h a (by simp)
    | cons b tl2 =>
      simp only [List.map_cons, List.sum_cons]
      have h1 := h a (by simp)
      have h2 := ih (by simp) (fun x hx => h x (List.mem_cons_of_mem a hx))
      simp only [List.map_cons, List.sum_cons] at h2
      exact add_lt_add h1 h2

/-- C4: the actor loss is `−mean(critic_local(cat(states, actor_local(states))))`,
and for a fixed critic assigning each predicted action of actor `A` a
strictly higher value than the corresponding prediction of actor `B`,
actor `A` attains a strictly lower (more negative) loss. -/
theorem C4_actor_loss_sign (A B : List Rat → List Rat) (c : List Rat → Rat)
    (states : List (List Rat)) (hne : states ≠ [])
    (hAB : ∀ st ∈ states, c (st ++ B st) < c (st ++ A st)) :
    calculate_actor_loss A c states
      = -((states.map fun st => c (st ++ A st)).sum / (states.length : Rat))
  ∧ calculate_actor_loss A c states < calculate_actor_loss B c states := by
  have hlen : (0 : Rat) < (states.length : Rat) := by
    exact_mod_cast List.length_pos.mpr hne
  constructor
  · simp [calculate_actor_loss, listMean]
  · unfold calculate_actor_loss listMean
    apply neg_lt_neg
    rw [List.length_map, List.length_map, div_lt_div_iff_of_pos_right hlen]
    exact sum_map_lt_sum_map _ _ states hne hAB

/-- Witness for C4: on the single state `[2]` with the critic reading the
appended action component, the actor producing `[1]` (critic value 1) has
loss `-1`, strictly below the loss `0` of the actor producing `[0]`. -/
theorem C4_witness :
    (([[(2 : Rat)]] : List (List Rat)) ≠ []
      ∧ ∀ st ∈ ([[(2 : Rat)]] : List (List Rat)),
          (st ++ [(0 : Rat)]).getD 1 0 < (st ++ [(1 : Rat)]).getD 1 0)
  ∧ calculate_actor_loss (fun _ => [(1 : Rat)]) (fun v => v.getD 1 0) [[(2 : Rat)]]
      < calculate_actor_loss (fun _ => [(0 : Rat)]) (fun v => v.getD 1 0) [[(2 : Rat)]] :=
  ⟨⟨by decide, by decide⟩,
    (C4_actor_loss_sign (fun _ => [(1 : Rat)]) (fun _ => [(0 : Rat)])
      (fun v => v.getD 1 0) [[(2 : Rat)]] (by decide) (by decide)).2⟩

/-- Modelled from the spec: `Base_Agent.soft_update_of_target_network`
(called at DDPG.py lines 93-95 and line 147, but defined in the excluded
base class): `θ_target ← τ·θ_local + (1−τ)·θ_target`, elementwise over
all parameters. -/
def soft_update_of_target_network (tau : Rat) (localParams targetParams : List Rat) :
    List Rat :=
  List.zipWith (fun l t => tau * l + (1 - tau) * t) localParams targetParams

lemma zipWith_getD (f : α → β → γ) (d1 : α) (d2 : β) (e : γ) :
    ∀ (as : List α) (bs : List β) (i : Nat), i < as.length → i < bs.length →
      (List.zipWith f as bs).getD i e = f (as.getD i d1) (bs.getD i d2) := by
  intro as
  induction as with
  | nil => intro bs i h1 _; simp at h1
  | cons a tl ih =>
    intro bs i h1 h2
    cases bs with
    | nil => simp at h2
    | cons b bs =>
      cases i with
      | zero => rfl
      | succ i =>
        simp only [List.zipWith_cons_cons, List.getD_cons_succ]
        exact ih bs i (by simpa using h1) (by simpa using h2)

/-- C5: each soft update replaces a target parameter by
`τ·θ_local + (1−τ)·θ_target`, and for `τ ∈ (0,1]` the distance of the
target parameter to a constant local parameter contracts by exactly the
factor `(1−τ)` per update, hence never grows. -/
theorem C5_soft_update_contraction (τ : Rat) (θL θT : List Rat) (i : Nat)
    (hτ0 : 0 < τ) (hτ1 : τ ≤ 1) (hiL : i < θL.length) (hiT : i < θT.length) :
    (soft_update_of_target_network τ θL θT).getD i 0
        = τ * θL.getD i 0 + (1 - τ) * θT.getD i 0
  ∧ |(soft_update_of_target_network τ θL θT).getD i 0 - θL.getD i 0|
        = (1 - τ) * |θT.getD i 0 - θL.getD i 0|
  ∧ |(soft_update_of_target_network τ θL θT).getD i 0 - θL.getD i 0|
        ≤ |θT.getD i 0 - θL.getD i 0| := by
  have hz := zipWith_getD (fun l t => τ * l + (1 - τ) * t) 0 0 0 θL θT i hiL hiT
  have h1τ : (0 : Rat) ≤ 1 - τ := by linarith
  have hfac : τ * θL.getD i 0 + (1 - τ) * θT.getD i 0 - θL.getD i 0
      = (1 - τ) * (θT.getD i 0 - θL.getD i 0) := by ring
  have h2 : |(soft_update_of_target_network τ θL θT).getD i 0 - θL.getD i 0|
      = (1 - τ) * |θT.getD i 0 - θL.getD i 0| := by
    rw [soft_update_of_target_network, hz, hfac, abs_mul, abs_of_nonneg h1τ]
  refine ⟨hz, h2, ?_⟩
  rw [h2]
  calc (1 - τ) * |θT.getD i 0 - θL.getD i 0|
      ≤ 1 * |θT.getD i 0 - θL.getD i 0| :=
        mul_le_mul_of_nonneg_right (by linarith) (abs_nonneg _)
    _ = |θT.getD i 0 - θL.getD i 0| := one_mul _

/-- Witness for C5: with `τ = 1/2`, local `[3]` and target `[7]`, the
updated target entry is `5` and `|5 − 3| = (1/2)·|7 − 3|`. -/
theorem C5_witness :
    ((0 : Rat) < 1/2 ∧ (1/2 : Rat) ≤ 1
      ∧ 0 < [(3 : Rat)].length ∧ 0 < [(7 : Rat)].length)
  ∧ ((soft_update_of_target_network (1/2) [(3 : Rat)] [(7 : Rat)]).getD 0 0
        = 1/2 * [(3 : Rat)].getD 0 0 + (1 - 1/2) * [(7 : Rat)].getD 0 0
    ∧ |(soft_update_of_target_network (1/2) [(3 : Rat)] [(7 : Rat)]).getD 0 0
          - [(3 : Rat)].getD 0 0|
        = (1 - 1/2) * |[(7 : Rat)].getD 0 0 - [(3 : Rat)].getD 0 0|
    ∧ |(soft_update_of_target_network (1/2) [(3 : Rat)] [(7 : Rat)]).getD 0 0
          - [(3 : Rat)].getD 0 0|
        ≤ |[(7 : Rat)].getD 0 0 - [(3 : Rat)].getD 0 0|) :=
  ⟨⟨by norm_num, by norm_num, by decide, by decide⟩,
    C5_soft_update_contraction (1/2) [(3 : Rat)] [(7 : Rat)] 0
      (by norm_num) (by norm_num) (by decide) (by decide)⟩

/-- Modelled from the spec: `Base_Agent.take_optimisation_step` (called at
DDPG.py lines 90-92 and 144-146 but defined in the excluded base class),
combined with the spec's `NumericInstabilityError` policy: when the loss
or any gradient component is non-finite (modelled as `none`), the
optimizer step for that call is skipped and the parameters are returned
unchanged; otherwise the clipping optimizer step `applyStep` is applied
to the finite gradient values. -/
def take_optimisation_step (applyStep : List Rat → List Rat → List Rat)
    (params : List Rat) (loss : Option Rat) (grads : List (Option Rat)) : List Rat :=
  if loss.isNone || grads.any fun g => g.isNone then params
  else applyStep params (grads.map fun g => g.getD 0)

/-- C7: whenever the loss or some gradient component of a learning call
is non-finite, the optimizer step of that call leaves the network
parameters exactly unchanged (no partial update). -/
theorem C7_nonfinite_skips_step (applyStep : List Rat → List Rat → List Rat)
    (params : List Rat) (loss : Option Rat) (grads : List (Option Rat))
    (h : loss = none ∨ none ∈ grads) :
    take_optimisation_step applyStep params loss grads = params := by
  unfold take_optimisation_step
  rcases h with h | h
  · simp [h]
  · have hany : grads.any (fun g => g.isNone) = true :=
      List.any_eq_true.mpr ⟨none, h, rfl⟩
    simp [hany]

/-- Witness for C7: a non-finite loss leaves the parameters `[1, 2]`
untouched even under an optimizer step that would otherwise change them. -/
theorem C7_witness :
    ((none : Option Rat) = none ∨ (none : Option Rat) ∈ [some (0 : Rat)])
  ∧ take_optimisation_step (fun p _ => p.map fun x => x + 1)
      [(1 : Rat), 2] none [some 0] = [(1 : Rat), 2] :=
  ⟨Or.inl rfl,
    C7_nonfinite_skips_step (fun p _ => p.map fun x => x + 1)
      [(1 : Rat), 2] none [some 0] (Or.inl rfl)⟩

/-- A function approximator as produced by the network factory: its
architecture (input and output dimensions) plus its parameter vector. -/
structure NN where
  input_dim : Nat
  output_dim : Nat
  params : List Rat
deriving DecidableEq, Repr

/-- The excluded network-factory collaborator `create_NN`; `initP`
abstracts the random parameter draw of the n-th factory call. -/
def create_NN (initP : Nat → List Rat) (call input_dim output_dim : Nat) : NN :=
  { input_dim := input_dim, output_dim := output_dim, params := initP call }

/-- Modelled from the spec: `Base_Agent.copy_model_over` (called at
DDPG.py lines 24 and 35 but defined in the excluded base class): copies
the local network's parameters onto the target network. -/
def copy_model_over (localNN targetNN : NN) : NN :=
  { targetNN with params := localNN.params }

/-- The four networks owned by the agent after construction. -/
structure DDPGNetworks where
  critic_local : NN
  critic_target : NN
  actor_local : NN
  actor_target : NN
deriving DecidableEq, Repr

/-- The network construction performed by `DDPG.__init__` (DDPG.py lines
18-24 and 33-35): each target network is created with the same dimensions
as its local counterpart, then the local parameters are copied over it. -/
def DDPG_init_networks (initP : Nat → List Rat) (state_size action_size : Nat) :
    DDPGNetworks :=
  let critic_local := create_NN initP 0 (state_size + action_size) 1
  let critic_target := copy_model_over critic_local
    (create_NN initP 1 (state_size + action_size) 1)
  let actor_local := create_NN initP 2 state_size action_size
  let actor_target := copy_model_over actor_local
    (create_NN initP 3 state_size action_size)
  ⟨critic_local, critic_target, actor_local, actor_target⟩

/-- C9: at construction both target networks agree with their local
counterparts in architecture and, after `copy_model_over`, in every
parameter value, for every parameter initialisation and state/action
size. -/
theorem C9_targets_start_equal (initP : Nat → List Rat) (state_size action_size : Nat) :
    (DDPG_init_networks initP state_size action_size).critic_target
        = (DDPG_init_networks initP state_size action_size).critic_local
  ∧ (DDPG_init_networks initP state_size action_size).actor_target
        = (DDPG_init_networks initP state_size action_size).actor_local :=
  ⟨rfl, rfl⟩

/-- The hyperparameter set consumed at construction. -/
structure Hyperparameters where
  discount_rate : Rat
  batch_size : Nat
  update_every_n_steps : Nat
  learning_updates_per_learning_session : Nat
  buffer_size : Nat
  critic_tau : Rat
  actor_tau : Rat
  critic_learning_rate : Rat
  actor_learning_rate : Rat
deriving DecidableEq, Repr

/-- The mutable agent state read and written by the control loop: the
four parameter vectors, the actor optimizer's learning rate, the replay
buffer contents, and the episode bookkeeping owned by the base class. -/
structure AgentState where
  critic_local : List Rat
  critic_target : List Rat
  actor_local : List Rat
  actor_target : List Rat
  actor_lr : Rat
  memory : List Transition
  state : List Rat
  action : List Rat
  reward : Rat
  next_state : List Rat
  done : Bool
  global_step_number : Nat
  episode_number : Nat
deriving DecidableEq, Repr

/-- The excluded collaborators, abstracted as pure functions: network
forward passes as functions of the parameter vector, the two autodiff
gradient computations, the two clipping Adam steps, the environment, the
exploration-noise perturbation, and the replay sampler's random index
stream for each sample call. -/
structure Collaborators where
  actorNet : List Rat → List Rat → List Rat
  criticNet : List Rat → List Rat → Rat
  criticGrad : List Rat → List (List Rat) → List (List Rat) → List Rat → List Rat
  actorGrad : List Rat → List Rat → List (List Rat) → List Rat
  criticOptimStep : List Rat → List Rat → List Rat
  actorOptimStep : Rat → List Rat → List Rat → List Rat
  env : List Rat → List Rat → Rat × List Rat × Bool
  explore : List Rat → List Rat
  draw : Nat → Nat → Nat

/-- Observable events emitted by one control-loop iteration, in the
order the corresponding operations execute in the source. -/
inductive Event where
  | sampleEv (call : Nat) (states : List (List Rat))
  | computeCriticTargetsEv (actor_target_params critic_target_params : List Rat)
      (targets : List Rat)
  | criticGradEv (states : List (List Rat))
  | criticOptStepEv
  | criticSoftUpdateEv
  | lrUpdateEv (lr : Rat)
  | actorGradEv (states : List (List Rat))
  | actorOptStepEv (lr : Rat)
  | actorSoftUpdateEv
deriving DecidableEq, Repr

def Event.isSample : Event → Bool
  | .sampleEv _ _ => true
  | _ => false

def Event.sampleCall : Event → Nat
  | .sampleEv k _ => k
  | _ => 0

def Event.isCriticOptStep : Event → Bool
  | .criticOptStepEv => true
  | _ => false

def Event.isActorOptStep : Event → Bool
  | .actorOptStepEv _ => true
  | _ => false

/-- One draw of the sampler: repeatedly pick a remaining transition by
the random index stream `g` and remove it (sampling without replacement
within the call). -/
def drawBatch (g : Nat → Nat) : Nat → List Transition → List Transition
  | 0, _ => []
  | n + 1, buf =>
    if h : buf.length = 0 then []
    else
      let i := g n % buf.length
      buf.get ⟨i, Nat.mod_lt _ (Nat.pos_of_ne_zero h)⟩ ::
        drawBatch g n (buf.eraseIdx i)

/-- Modelled from the spec: `Replay_Buffer.sample` (the replay buffer is
an excluded collaborator): draws a uniform-random batch of `batch_size`
distinct stored transitions without mutating the buffer, and fails with
`InsufficientDataError` (modelled as `none`) when the buffer holds fewer
than `batch_size` transitions. -/
def Replay_Buffer.sample (buf : List Transition) (batch_size : Nat) (g : Nat → Nat) :
    Option (List Transition) :=
  if buf.length < batch_size then none
  else some (drawBatch g batch_size buf)

/-- `sample_experiences` (DDPG.py lines 69-71): the sampled batch,
decomposed into the five parallel sequences
`(states, actions, rewards, next_states, dones)`. -/
def sample_experiences (mem : List Transition) (batch_size : Nat) (g : Nat → Nat) :
    Option (List (List Rat) × List (List Rat) × List Rat × List (List Rat) × List Rat) :=
  (Replay_Buffer.sample mem batch_size g).map fun batch =>
    (batch.map (·.state), batch.map (·.action), batch.map (·.reward),
      batch.map (·.next_state), batch.map fun t => doneToRat t.done)

/-- Modelled from the spec: `Replay_Buffer.add` via
`Base_Agent.save_experience` (both excluded collaborators): appends the
realized transition, evicting the oldest entries beyond capacity. -/
def Replay_Buffer.add (capacity : Nat) (buf : List Transition) (t : Transition) :
    List Transition :=
  let grown := buf ++ [t]
  if capacity < grown.length then grown.drop (grown.length - capacity) else grown

/-- `save_experience` as invoked at DDPG.py line 63: stores the
transition realized in this iteration. -/
def save_experience (hp : Hyperparameters) (s : AgentState) : AgentState :=
  let t : Transition := ⟨s.state, s.action, s.reward, s.next_state, s.done⟩
  { s with memory := Replay_Buffer.add hp.buffer_size s.memory t }

/-- Modelled from the spec: `Base_Agent.enough_experiences_to_learn_from`
(excluded base class), the learning trigger's guard that the buffer holds
at least `batch_size` transitions. -/
def enough_experiences_to_learn_from (hp : Hyperparameters) (s : AgentState) : Bool :=
  decide (hp.batch_size ≤ s.memory.length)

/-- `time_for_critic_and_actor_to_learn` (DDPG.py lines 132-136). -/
def time_for_critic_and_actor_to_learn (hp : Hyperparameters) (s : AgentState) : Bool :=
  enough_experiences_to_learn_from hp s
    && decide (s.global_step_number % hp.update_every_n_steps = 0)

/-- Modelled from the spec: `Base_Agent.update_learning_rate` (excluded
base class); per the spec's design note, the source sets the actor
optimizer's learning rate to the supplied (non-decayed) hyperparameter
value. -/
def update_learning_rate (lr : Rat) (s : AgentState) : AgentState :=
  { s with actor_lr := lr }

/-- `critic_learn` (DDPG.py lines 84-95): compute the critic targets from
the current actor-target and critic-target parameters, compute gradients
of the critic loss, take the optimizer step on critic-local, then
soft-update critic-target from the freshly updated critic-local. -/
def critic_learn (C : Collaborators) (hp : Hyperparameters) (s : AgentState)
    (states actions : List (List Rat)) (rewards : List Rat)
    (next_states : List (List Rat)) (dones : List Rat) : AgentState × List Event :=
  let critic_targets := compute_critic_targets hp.discount_rate
    (C.actorNet s.actor_target) (C.criticNet s.critic_target) next_states rewards dones
  let grads := C.criticGrad s.critic_local states actions critic_targets
  let localAfter := C.criticOptimStep s.critic_local grads
  let targetAfter := soft_update_of_target_network hp.critic_tau localAfter s.critic_target
  ({ s with critic_local := localAfter, critic_target := targetAfter },
    [Event.computeCriticTargetsEv s.actor_target s.critic_target critic_targets,
     Event.criticGradEv states,
     Event.criticOptStepEv,
     Event.criticSoftUpdateEv])

/-- `actor_learn` (DDPG.py lines 138-147): at an episode boundary first
adjust the actor optimizer's learning rate, then compute gradients of the
actor loss, take the optimizer step on actor-local, then soft-update
actor-target. -/
def actor_learn (C : Collaborators) (hp : Hyperparameters) (s : AgentState)
    (states : List (List Rat)) : AgentState × List Event :=
  let s0 := if s.done then update_learning_rate hp.actor_learning_rate s else s
  let evs0 : List Event := if s.done then [Event.lrUpdateEv hp.actor_learning_rate] else []
  let grads := C.actorGrad s0.actor_local s0.critic_local states
  let localAfter := C.actorOptimStep s0.actor_lr s0.actor_local grads
  let targetAfter := soft_update_of_target_network hp.actor_tau localAfter s0.actor_target
  ({ s0 with actor_local := localAfter, actor_target := targetAfter },
    evs0 ++ [Event.actorGradEv states, Event.actorOptStepEv s0.actor_lr,
      Event.actorSoftUpdateEv])

/-- One repetition of the learning session (DDPG.py lines 60-62): sample
a batch, run the critic learning step, then run the actor learning step
on the same sampled states. -/
def learn_repetition (C : Collaborators) (hp : Hyperparameters) (s : AgentState)
    (k : Nat) : Option (AgentState × List Event) :=
  match sample_experiences s.memory hp.batch_size (C.draw k) with
  | none => none
  | some (states, actions, rewards, next_states, dones) =>
    let r1 := critic_learn C hp s states actions rewards next_states dones
    let r2 := actor_learn C hp r1.1 states
    some (r2.1, Event.sampleEv k states :: (r1.2 ++ r2.2))

/-- The learning session loop (DDPG.py lines 59-62): `m` remaining
repetitions, the next sample call being the `k`-th of this session. -/
def learning_session (C : Collaborators) (hp : Hyperparameters) :
    Nat → Nat → AgentState → Option (AgentState × List Event)
  | 0, _, s => some (s, [])
  | m + 1, k, s =>
    match learn_repetition C hp s k with
    | none => none
    | some (s1, e1) =>
      match learning_session C hp m (k + 1) s1 with
      | none => none
      | some (s2, e2) => some (s2, e1 ++ e2)

/-- `pick_action` (DDPG.py lines 73-82): the actor-local forward pass on
the current state, perturbed by the exploration strategy. -/
def pick_action (C : Collaborators) (s : AgentState) : List Rat :=
  C.explore (C.actorNet s.actor_local s.state)

/-- `conduct_action` (excluded base class, called at DDPG.py line 57):
executes the action in the environment and records the realized action,
reward, next state and done flag on the agent. -/
def conduct_action (C : Collaborators) (s : AgentState) (a : List Rat) : AgentState :=
  let outcome := C.env s.state a
  { s with
    action := a
    reward := outcome.1
    next_state := outcome.2.1
    done := outcome.2.2 }

/-- The learning phase of one iteration (DDPG.py lines 58-62): the
session runs only under the learning trigger. -/
def learning_phase (C : Collaborators) (hp : Hyperparameters) (s : AgentState) :
    Option (AgentState × List Event) :=
  if time_for_critic_and_actor_to_learn hp s then
    learning_session C hp hp.learning_updates_per_learning_session 0 s
  else some (s, [])

/-- Advancing phase (DDPG.py lines 64-66): current state becomes the
next state and the global step counter increments. -/
def advance (s : AgentState) : AgentState :=
  { s with
    state := s.next_state
    global_step_number := s.global_step_number + 1 }

/-- One iteration of the control loop (the body of the `while not
self.done` loop, DDPG.py lines 56-66): pick a perturbed action, conduct
it in the environment, learn conditionally, store the experience, then
advance the state and the global step counter. -/
def step_iter (C : Collaborators) (hp : Hyperparameters) (s : AgentState) :
    Option (AgentState × List Event) :=
  match learning_phase C hp (conduct_action C s (pick_action C s)) with
  | none => none
  | some (s1, evs) => some (advance (save_experience hp s1), evs)

lemma critic_learn_memory (C : Collaborators) (hp : Hyperparameters) (s : AgentState)
    (st ac : List (List Rat)) (rw : List Rat) (ns : List (List Rat)) (dn : List Rat) :
    (critic_learn C hp s st ac rw ns dn).1.memory = s.memory := rfl

lemma critic_learn_done (C : Collaborators) (hp : Hyperparameters) (s : AgentState)
    (st ac : List (List Rat)) (rw : List Rat) (ns : List (List Rat)) (dn : List Rat) :
    (critic_learn C hp s st ac rw ns dn).1.done = s.done := rfl

lemma actor_learn_memory (C : Collaborators) (hp : Hyperparameters) (s : AgentState)
    (st : List (List Rat)) : (actor_learn C hp s st).1.memory = s.memory := by
  cases h : s.done <;> simp [actor_learn, update_learning_rate, h]

lemma actor_learn_done (C : Collaborators) (hp : Hyperparameters) (s : AgentState)
    (st : List (List Rat)) : (actor_learn C hp s st).1.done = s.done := by
  cases h : s.done <;> simp [actor_learn, update_learning_rate, h]

/-- C2: the critic learning step computes its bootstrap targets from the
actor-target and critic-target parameters as they are at the start of the
call and leaves the actor-target untouched; its critic-target soft update
blends the critic-local parameters as they are after the optimizer step
of the same call; and every repetition of a learning session runs the
critic learning step strictly before the actor learning step, so the two
always occur together under the same trigger. -/
theorem C2_learning_order (C : Collaborators) (hp : Hyperparameters) (s : AgentState)
    (k : Nat) (st ac : List (List Rat)) (rw : List Rat) (ns : List (List Rat))
    (dn : List Rat) :
    (critic_learn C hp s st ac rw ns dn).2
        = [Event.computeCriticTargetsEv s.actor_target s.critic_target
             (compute_critic_targets hp.discount_rate (C.actorNet s.actor_target)
               (C.criticNet s.critic_target) ns rw dn),
           Event.criticGradEv st, Event.criticOptStepEv, Event.criticSoftUpdateEv]
  ∧ (critic_learn C hp s st ac rw ns dn).1.actor_target = s.actor_target
  ∧ (critic_learn C hp s st ac rw ns dn).1.critic_local
        = C.criticOptimStep s.critic_local (C.criticGrad s.critic_local st ac
            (compute_critic_targets hp.discount_rate (C.actorNet s.actor_target)
              (C.criticNet s.critic_target) ns rw dn))
  ∧ (critic_learn C hp s st ac rw ns dn).1.critic_target
        = soft_update_of_target_network hp.critic_tau
            ((critic_learn C hp s st ac rw ns dn).1.critic_local) s.critic_target
  ∧ learn_repetition C hp s k
        = Option.map (fun b =>
            ((actor_learn C hp
                (critic_learn C hp s b.1 b.2.1 b.2.2.1 b.2.2.2.1 b.2.2.2.2).1 b.1).1,
              Event.sampleEv k b.1 ::
                ((critic_learn C hp s b.1 b.2.1 b.2.2.1 b.2.2.2.1 b.2.2.2.2).2
                  ++ (actor_learn C hp
                      (critic_learn C hp s b.1 b.2.1 b.2.2.1 b.2.2.2.1 b.2.2.2.2).1 b.1).2)))
          (sample_experiences s.memory hp.batch_size (C.draw k)) := by
  refine ⟨rfl, rfl, rfl, rfl, ?_⟩
  cases h : sample_experiences s.memory hp.batch_size (C.draw k) with
  | none => simp [learn_repetition, h]
  | some b =>
    obtain ⟨st', ac', rw', ns', dn'⟩ := b
    simp [learn_repetition, h]

/-- C8: when `actor_learn` runs in an iteration that ends an episode
(`done = true`), the actor optimizer's learning rate is set to the
configured (non-decayed) hyperparameter value before the gradient
computation and the optimizer step of the call, and the optimizer step
runs with exactly that value. -/
theorem C8_lr_update_at_episode_end (C : Collaborators) (hp : Hyperparameters)
    (s : AgentState) (st : List (List Rat)) (h : s.done = true) :
    (actor_learn C hp s st).2
        = [Event.lrUpdateEv hp.actor_learning_rate, Event.actorGradEv st,
           Event.actorOptStepEv hp.actor_learning_rate, Event.actorSoftUpdateEv]
  ∧ (actor_learn C hp s st).1.actor_lr = hp.actor_learning_rate := by
  constructor <;> simp [actor_learn, update_learning_rate, h]

/-- C10: each learning-session repetition samples exactly one batch, and
the critic gradient step and the actor gradient step of the repetition
both receive exactly the states sequence of that single sampled batch. -/
theorem C10_shared_batch (C : Collaborators) (hp : Hyperparameters) (s : AgentState)
    (k : Nat) (s' : AgentState) (evs : List Event)
    (h : learn_repetition C hp s k = some (s', evs)) :
    (evs.filter Event.isSample).length = 1
  ∧ ∃ st, Event.sampleEv k st ∈ evs ∧ Event.criticGradEv st ∈ evs
      ∧ Event.actorGradEv st ∈ evs := by
  unfold learn_repetition at h
  cases hs : sample_experiences s.memory hp.batch_size (C.draw k) with
  | none => rw [hs] at h; exact absurd h (by simp)
  | some b =>
    rw [hs] at h
    obtain ⟨st, ac, rw', ns, dn⟩ := b
    have hevs := congrArg Prod.snd (Option.some.inj h)
    dsimp only at hevs
    rw [← hevs]
    cases hd : s.done <;>
      refine ⟨by simp [critic_learn, actor_learn, update_learning_rate, hd,
          Event.isSample], st, by simp, by simp [critic_learn], ?_⟩ <;>
      simp [critic_learn, actor_learn, update_learning_rate, hd]

lemma learn_repetition_some (C : Collaborators) (hp : Hyperparameters) (s : AgentState)
    (k : Nat) (h : hp.batch_size ≤ s.memory.length) :
    ∃ s' evs, learn_repetition C hp s k = some (s', evs)
      ∧ s'.memory = s.memory ∧ s'.done = s.done
      ∧ (evs.filter Event.isSample).map Event.sampleCall = [k]
      ∧ (evs.filter Event.isCriticOptStep).length = 1
      ∧ (evs.filter Event.isActorOptStep).length = 1 := by
  have hsamp : Replay_Buffer.sample s.memory hp.batch_size (C.draw k)
      = some (drawBatch (C.draw k) hp.batch_size s.memory) := by
    unfold Replay_Buffer.sample
    rw [if_neg (by omega)]
  obtain ⟨sts, acts, rws, nsts, dns, hse⟩ :
      ∃ sts acts rws nsts dns, sample_experiences s.memory hp.batch_size (C.draw k)
        = some (sts, acts, rws, nsts, dns) := by
    unfold sample_experiences
    rw [hsamp]
    exact ⟨_, _, _, _, _, rfl⟩
  refine ⟨(actor_learn C hp (critic_learn C hp s sts acts rws nsts dns).1 sts).1,
    Event.sampleEv k sts :: ((critic_learn C hp s sts acts rws nsts dns).2
      ++ (actor_learn C hp (critic_learn C hp s sts acts rws nsts dns).1 sts).2),
    ?_, ?_, ?_, ?_, ?_, ?_⟩
  · unfold learn_repetition
    simp only [hse]
  · rw [actor_learn_memory, critic_learn_memory]
  · rw [actor_learn_done, critic_learn_done]
  · cases hd : s.done <;>
      simp [critic_learn, actor_learn, update_learning_rate, hd,
        Event.isSample, Event.sampleCall]
  · cases hd : s.done <;>
      simp [critic_learn, actor_learn, update_learning_rate, hd, Event.isCriticOptStep]
  · cases hd : s.done <;>
      simp [critic_learn, actor_learn, update_learning_rate, hd, Event.isActorOptStep]

lemma learning_session_some (C : Collaborators) (hp : Hyperparameters) :
    ∀ (m k : Nat) (s : AgentState), hp.batch_size ≤ s.memory.length →
      ∃ s' evs, learning_session C hp m k s = some (s', evs)
        ∧ s'.memory = s.memory ∧ s'.done = s.done
        ∧ (evs.filter Event.isSample).map Event.sampleCall = List.range' k m
        ∧ (evs.filter Event.isCriticOptStep).length = m
        ∧ (evs.filter Event.isActorOptStep).length = m := by
  intro m
  induction m with
  | zero =>
    intro k s h
    exact ⟨s, [], rfl, rfl, rfl, by simp [List.range'], by simp, by simp⟩
  | succ m ih =>
    intro k s h
    obtain ⟨s1, e1, hrep, hm1, hd1, hf1, hc1, ha1⟩ := learn_repetition_some C hp s k h
    obtain ⟨s2, e2, hsess, hm2, hd2, hf2, hc2, ha2⟩ := ih (k + 1) s1 (by rw [hm1]; exact h)
    refine ⟨s2, e1 ++ e2, ?_, by rw [hm2, hm1], by rw [hd2, hd1], ?_, ?_, ?_⟩
    · unfold learning_session
      simp only [hrep, hsess]
    · rw [List.filter_append, List.map_append, hf1, hf2, List.range'_succ]
      rfl
    · rw [List.filter_append, List.length_append, hc1, hc2]
      omega
    · rw [List.filter_append, List.length_append, ha1, ha2]
      omega

lemma time_for_conduct_action (C : Collaborators) (hp : Hyperparameters)
    (s : AgentState) (a : List Rat) :
    time_for_critic_and_actor_to_learn hp (conduct_action C s a)
      = time_for_critic_and_actor_to_learn hp s := rfl

lemma time_for_iff (hp : Hyperparameters) (s : AgentState) :
    time_for_critic_and_actor_to_learn hp s = true
      ↔ hp.batch_size ≤ s.memory.length
        ∧ s.global_step_number % hp.update_every_n_steps = 0 := by
  simp [time_for_critic_and_actor_to_learn, enough_experiences_to_learn_from]

lemma learning_phase_some (C : Collaborators) (hp : Hyperparameters) (s : AgentState) :
    ∃ s' evs, learning_phase C hp s = some (s', evs)
      ∧ (evs.filter Event.isSample).map Event.sampleCall
          = (if time_for_critic_and_actor_to_learn hp s then
              List.range hp.learning_updates_per_learning_session else [])
      ∧ (evs.filter Event.isCriticOptStep).length
          = (if time_for_critic_and_actor_to_learn hp s then
              hp.learning_updates_per_learning_session else 0)
      ∧ (evs.filter Event.isActorOptStep).length
          = (if time_for_critic_and_actor_to_learn hp s then
              hp.learning_updates_per_learning_session else 0) := by
  cases ht : time_for_critic_and_actor_to_learn hp s with
  | false =>
    refine ⟨s, [], ?_, by simp, by simp, by simp⟩
    unfold learning_phase
    rw [ht]
    rfl
  | true =>
    have hb : hp.batch_size ≤ s.memory.length := ((time_for_iff hp s).mp ht).1
    obtain ⟨s', evs, hsess, _, _, hf, hc, ha⟩ :=
      learning_session_some C hp hp.learning_updates_per_learning_session 0 s hb
    refine ⟨s', evs, ?_, ?_, by simp [hc], by simp [ha]⟩
    · unfold learning_phase
      rw [ht]
      exact hsess
    · rw [hf]
      simp [List.range_eq_range']

/-- C3: the learning trigger holds exactly when the buffer holds at least
`batch_size` transitions and the global step counter is divisible by
`update_every_n_steps`; in every control-loop iteration, when the trigger
holds the critic-then-actor learning step runs exactly
`learning_updates_per_learning_session` times, each repetition drawing
its own fresh sample (the sample calls are numbered `0, …, n−1`), and
when the trigger fails no sampling and no optimizer step occurs. -/
theorem C3_trigger_and_session (C : Collaborators) (hp : Hyperparameters)
    (s : AgentState) :
    (time_for_critic_and_actor_to_learn hp s = true
        ↔ hp.batch_size ≤ s.memory.length
          ∧ s.global_step_number % hp.update_every_n_steps = 0)
  ∧ ∀ s' evs, step_iter C hp s = some (s', evs) →
      (evs.filter Event.isSample).map Event.sampleCall
          = (if time_for_critic_and_actor_to_learn hp s then
              List.range hp.learning_updates_per_learning_session else [])
      ∧ (evs.filter Event.isCriticOptStep).length
          = (if time_for_critic_and_actor_to_learn hp s then
              hp.learning_updates_per_learning_session else 0)
      ∧ (evs.filter Event.isActorOptStep).length
          = (if time_for_critic_and_actor_to_learn hp s then
              hp.learning_updates_per_learning_session else 0) := by
  refine ⟨time_for_iff hp s, ?_⟩
  intro s' evs h
  obtain ⟨s1, evs1, hphase, hf, hc, ha⟩ :=
    learning_phase_some C hp (conduct_action C s (pick_action C s))
  unfold step_iter at h
  rw [hphase] at h
  have hevs := congrArg Prod.snd (Option.some.inj h)
  dsimp only at hevs
  rw [← hevs]
  rw [time_for_conduct_action] at hf hc ha
  exact ⟨hf, hc, ha⟩

/-- C6: one control-loop iteration never fails: the replay buffer's
sample operation is reached only under the learning trigger's guard, so
the `InsufficientDataError` branch (the `none` outcome of sampling) is
unreachable from the control loop, whatever the agent state. -/
theorem C6_insufficient_data_unreachable (C : Collaborators) (hp : Hyperparameters)
    (s : AgentState) : (step_iter C hp s).isSome = true := by
  obtain ⟨s1, evs1, hphase, _⟩ :=
    learning_phase_some C hp (conduct_action C s (pick_action C s))
  unfold step_iter
  rw [hphase]
  rfl

/-- Trivial collaborator functions used for concrete evaluations. -/
def demoCollab : Collaborators where
  actorNet := fun _ _ => [0]
  criticNet := fun _ _ => 0
  criticGrad := fun _ _ _ _ => [0]
  actorGrad := fun _ _ _ => [0]
  criticOptimStep := fun p _ => p
  actorOptimStep := fun _ p _ => p
  env := fun _ _ => (0, [0], false)
  explore := fun a => a
  draw := fun _ _ => 0

/-- A small concrete hyperparameter set used for concrete evaluations. -/
def demoHp : Hyperparameters where
  discount_rate := 9/10
  batch_size := 1
  update_every_n_steps := 1
  learning_updates_per_learning_session := 2
  buffer_size := 5
  critic_tau := 1/2
  actor_tau := 1/2
  critic_learning_rate := 1/100
  actor_learning_rate := 1/100

/-- A concrete stored transition. -/
def demoTransition : Transition := ⟨[0], [0], 1, [0], true⟩

/-- A concrete agent state holding one stored transition, at an episode
boundary, with a stale actor learning rate so the rate update is
observable. -/
def demoState : AgentState where
  critic_local := [0]
  critic_target := [0]
  actor_local := [0]
  actor_target := [0]
  actor_lr := 1/2
  memory := [demoTransition]
  state := [0]
  action := [0]
  reward := 0
  next_state := [0]
  done := true
  global_step_number := 0
  episode_number := 0

/-- The event trace of one learning-session repetition started from
`demoState`. -/
def demoRepetitionEvents : List Event :=
  [Event.sampleEv 0 [[0]],
   Event.computeCriticTargetsEv [0] [0] [1],
   Event.criticGradEv [[0]],
   Event.criticOptStepEv,
   Event.criticSoftUpdateEv,
   Event.lrUpdateEv (1/100),
   Event.actorGradEv [[0]],
   Event.actorOptStepEv (1/100),
   Event.actorSoftUpdateEv]

lemma demo_learn_repetition_eq :
    learn_repetition demoCollab demoHp demoState 0
      = some ({ demoState with actor_lr := (1/100 : Rat) }, demoRepetitionEvents) := by
  norm_num [learn_repetition, sample_experiences, Replay_Buffer.sample, drawBatch,
    critic_learn, actor_learn, update_learning_rate, compute_critic_targets,
    compute_critic_values_for_next_states, compute_critic_values_for_current_states,
    zipWith3, soft_update_of_target_network, doneToRat,
    demoCollab, demoHp, demoState, demoTransition, demoRepetitionEvents]

/-- Witness for C10: on the concrete instance the repetition samples
exactly once and hands the same sampled states `[[0]]` to both gradient
steps. -/
theorem C10_witness :
    learn_repetition demoCollab demoHp demoState 0
        = some ({ demoState with actor_lr := (1/100 : Rat) }, demoRepetitionEvents)
  ∧ ((demoRepetitionEvents.filter Event.isSample).length = 1
    ∧ ∃ st, Event.sampleEv 0 st ∈ demoRepetitionEvents
        ∧ Event.criticGradEv st ∈ demoRepetitionEvents
        ∧ Event.actorGradEv st ∈ demoRepetitionEvents) :=
  ⟨demo_learn_repetition_eq,
    C10_shared_batch demoCollab demoHp demoState 0
      { demoState with actor_lr := (1/100 : Rat) } demoRepetitionEvents
      demo_learn_repetition_eq⟩

/-- Witness for C8: at the episode boundary of the concrete instance the
stale learning rate `1/2` is replaced by the configured `1/100` before
the gradient and optimizer events, and the optimizer step runs with
`1/100`. -/
theorem C8_witness :
    demoState.done = true
  ∧ ((actor_learn demoCollab demoHp demoState [[0]]).2
        = [Event.lrUpdateEv demoHp.actor_learning_rate, Event.actorGradEv [[0]],
           Event.actorOptStepEv demoHp.actor_learning_rate, Event.actorSoftUpdateEv]
    ∧ (actor_learn demoCollab demoHp demoState [[0]]).1.actor_lr
        = demoHp.actor_learning_rate) :=
  ⟨rfl, C8_lr_update_at_episode_end demoCollab demoHp demoState [[0]] rfl⟩

/-- The event trace of one full control-loop iteration started from
`demoState` (trigger holds; two repetitions; the environment step clears
`done`, so no learning-rate event occurs). -/
def demoStepEvents : List Event :=
  [Event.sampleEv 0 [[0]],
   Event.computeCriticTargetsEv [0] [0] [1],
   Event.criticGradEv [[0]],
   Event.criticOptStepEv,
   Event.criticSoftUpdateEv,
   Event.actorGradEv [[0]],
   Event.actorOptStepEv (1/2),
   Event.actorSoftUpdateEv,
   Event.sampleEv 1 [[0]],
   Event.computeCriticTargetsEv [0] [0] [1],
   Event.criticGradEv [[0]],
   Event.criticOptStepEv,
   Event.criticSoftUpdateEv,
   Event.actorGradEv [[0]],
   Event.actorOptStepEv (1/2),
   Event.actorSoftUpdateEv]

/-- The agent state after that iteration. -/
def demoStepState : AgentState := { demoState with
  memory := [demoTransition, ⟨[0], [0], 0, [0], false⟩]
  done := false
  global_step_number := 1 }

lemma demo_step_iter_eq :
    step_iter demoCollab demoHp demoState = some (demoStepState, demoStepEvents) := by
  norm_num [step_iter, learning_phase, learning_session, learn_repetition,
    pick_action, conduct_action, save_experience, advance, Replay_Buffer.add,
    time_for_critic_and_actor_to_learn, enough_experiences_to_learn_from,
    sample_experiences, Replay_Buffer.sample, drawBatch,
    critic_learn, actor_learn, update_learning_rate, compute_critic_targets,
    compute_critic_values_for_next_states, compute_critic_values_for_current_states,
    zipWith3, soft_update_of_target_network, doneToRat,
    demoCollab, demoHp, demoState, demoTransition, demoStepState, demoStepEvents]

/-- Witness for C3: on the concrete instance the trigger holds, the
iteration runs exactly two repetitions, and its sample calls are
numbered `[0, 1]`. -/
theorem C3_witness :
    step_iter demoCollab demoHp demoState = some (demoStepState, demoStepEvents)
  ∧ ((demoStepEvents.filter Event.isSample).map Event.sampleCall
        = (if time_for_critic_and_actor_to_learn demoHp demoState then
            List.range demoHp.learning_updates_per_learning_session else [])
    ∧ (demoStepEvents.filter Event.isCriticOptStep).length
        = (if time_for_critic_and_actor_to_learn demoHp demoState then
            demoHp.learning_updates_per_learning_session else 0)
    ∧ (demoStepEvents.filter Event.isActorOptStep).length
        = (if time_for_critic_and_actor_to_learn demoHp demoState then
            demoHp.learning_updates_per_learning_session else 0)) :=
  ⟨demo_step_iter_eq,
    (C3_trigger_and_session demoCollab demoHp demoState).2
      demoStepState demoStepEvents demo_step_iter_eq⟩

end DDPGSpec
